import Mathlib

/-!
Shallow embedding of the trading core of `src/main.py` (an OANDA trading
script).  Prices are modelled as rationals (`ℚ`); Python decimal literals
such as `0.99` become the exact rationals `99/100`.  Python `None` becomes
`Option.none`, and Python truthiness on numeric values (`if rsi and ...`)
is modelled explicitly: `None` and `0` are falsy, everything else truthy.
-/

/-- Python slice `l[-k:]`: for `k > 0` the last `min k (length l)` elements;
for `k = 0` the slice `l[0:]`, i.e. the whole list. -/
def pySliceLast (k : ℕ) (l : List ℚ) : List ℚ :=
  if k = 0 then l else l.drop (l.length - k)

/-- The per-step differences `[prices[i] - prices[i-1] for i in range(1, len(prices))]`
from `calculate_rsi` (src/main.py line 142). -/
def diffs : List ℚ → List ℚ
  | a :: b :: rest => (b - a) :: diffs (b :: rest)
  | _ => []

/-- `OANDATrader.calculate_sma` (src/main.py lines 133-135):
`sum(prices[-period:]) / period if len(prices) >= period else None`. -/
def calculate_sma (prices : List ℚ) (period : ℕ) : Option ℚ :=
  if prices.length ≥ period then some ((pySliceLast period prices).sum / period)
  else none

/-- `OANDATrader.calculate_rsi` (src/main.py lines 137-154).  Returns `none`
when fewer than `period + 1` prices exist; returns `100` whenever the average
loss over the last `period` differences is zero (this branch fires before any
division, so no divide-by-zero can occur); otherwise
`100 - 100 / (1 + avg_gain / avg_loss)`. -/
def calculate_rsi (prices : List ℚ) (period : ℕ) : Option ℚ :=
  if prices.length < period + 1 then none
  else
    let deltas := diffs prices
    let gains := deltas.map (fun d => if d > 0 then d else 0)
    let losses := deltas.map (fun d => if d < 0 then -d else 0)
    let avg_gain := (pySliceLast period gains).sum / period
    let avg_loss := (pySliceLast period losses).sum / period
    if avg_loss = 0 then some 100
    else some (100 - 100 / (1 + avg_gain / avg_loss))

/-- Trading decision, `Buy`/`Sell`/`Hold`. -/
inductive Decision where
  | buy | sell | hold
  deriving DecidableEq

/-- The direction integer associated with a decision (+1 for Buy, -1 for
Sell, 0 for Hold). -/
def directionOf : Decision → ℤ
  | .buy => 1
  | .sell => -1
  | .hold => 0

/-- The decision block of `simple_trading_strategy` (src/main.py lines
191-233, reading the signal branches as structured under the outer guard).
The outer guard `if rsi and sma_20 and sma_50:` is Python truthiness on
numbers: it fails when any of the three is `None` or equals `0`.  Inside,
`rsi < 30 and sma_20 > sma_50` gives a buy, `rsi > 70 and sma_20 < sma_50`
a sell, and everything else (including a falsy outer guard) produces no
signal. -/
def tradingDecision (rsi sma_20 sma_50 : Option ℚ) : Decision :=
  match rsi, sma_20, sma_50 with
  | some r, some s20, some s50 =>
    if r ≠ 0 ∧ s20 ≠ 0 ∧ s50 ≠ 0 then
      if r < 30 ∧ s20 > s50 then .buy
      else if r > 70 ∧ s20 < s50 then .sell
      else .hold
    else .hold
  | _, _, _ => .hold

/-- The `order_data` payload assembled by `OANDATrader.create_market_order`
(src/main.py lines 54-81).  `units` is sent as `str(units)`; we keep the
integer.  The string constants are the fixed fields of the payload. -/
structure MarketOrder where
  type : String
  instrument : String
  units : ℤ
  timeInForce : String
  positionFill : String
  stopLossOnFill : Option ℚ
  takeProfitOnFill : Option ℚ
  deriving DecidableEq

/-- `OANDATrader.create_market_order` (src/main.py lines 54-81), up to the
HTTP post: builds the order payload.  The guards `if stop_loss:` and
`if take_profit:` are Python truthiness, so the corresponding field is
attached only when the argument is neither `None` nor `0`. -/
def create_market_order (instrument : String) (units : ℤ)
    (stop_loss take_profit : Option ℚ) : MarketOrder :=
  { type := "MARKET"
    instrument := instrument
    units := units
    timeInForce := "FOK"
    positionFill := "DEFAULT"
    stopLossOnFill :=
      match stop_loss with
      | some sl => if sl = 0 then none else some sl
      | none => none
    takeProfitOnFill :=
      match take_profit with
      | some tp => if tp = 0 then none else some tp
      | none => none }

/-- The risk parameters `(stop_loss, take_profit, units)` computed in the
buy and sell branches of `simple_trading_strategy` (src/main.py lines
203-230): buy uses `current_price * 0.99`, `current_price * 1.02` and
`1000` units; sell uses `current_price * 1.01`, `current_price * 0.98`
and `-1000` units; the hold path computes none. -/
def riskParams : Decision → ℚ → Option (ℚ × ℚ × ℤ)
  | .buy, p => some (p * (99 / 100), p * (102 / 100), 1000)
  | .sell, p => some (p * (101 / 100), p * (98 / 100), -1000)
  | .hold, _ => none

/-- The analysis part of `simple_trading_strategy` (src/main.py lines
175-233) as a function of the extracted closes: the insufficient-data
return when fewer than 20 closes (`none`), otherwise SMA(20), SMA(50) and
RSI(14) feed the decision block, and a non-Hold decision places a market
order built from the risk parameters of the latest close. -/
def strategyCycle (instrument : String) (closes : List ℚ) :
    Option (Decision × Option MarketOrder) :=
  if closes.length < 20 then none
  else
    let sma_20 := calculate_sma closes 20
    let sma_50 := calculate_sma closes 50
    let rsi := calculate_rsi closes 14
    let current_price := closes.getLastD 0
    let d := tradingDecision rsi sma_20 sma_50
    some (d, (riskParams d current_price).map
      (fun r => create_market_order instrument r.2.2 (some r.1) (some r.2.1)))

/-- A raw candle record as consumed by the extraction loop (src/main.py
lines 169-173).  Each field is `Option` so that a missing dictionary key is
representable; `mid_c` stands for `candle['mid']['c']` (collapsed: missing
`mid` or missing `c` both mean the close is absent). -/
structure RawCandle where
  complete : Option Bool
  timestamp : Option ℤ
  mid_c : Option ℚ
  deriving DecidableEq

/-- A Python runtime error relevant to the extraction loop: a missing
dictionary key. -/
inductive PyErr where
  | keyError (field : String)
  deriving DecidableEq

/-- The close-extraction loop of `simple_trading_strategy` (src/main.py
lines 169-173): for each candle it reads `candle['complete']` (KeyError if
absent), and for complete candles it reads `candle['mid']['c']` (KeyError
if absent) and appends the close.  Timestamps are never examined. -/
def extractCloses : List RawCandle → Except PyErr (List ℚ)
  | [] => .ok []
  | c :: rest =>
    match c.complete with
    | none => .error (.keyError "complete")
    | some b =>
      if b then
        match c.mid_c with
        | none => .error (.keyError "c")
        | some v => (extractCloses rest).map (fun tl => v :: tl)
      else extractCloses rest

/-- An observable side effect of `simple_trading_strategy`: fetching
candles from the trader (line 163) or placing an order (lines 209, 225). -/
inductive Effect where
  | fetchCandles | placeOrder
  deriving DecidableEq

/-- One statement of the body of `simple_trading_strategy`, abstracted to
the local names it reads, the local names it assigns, and the side effects
it may perform. -/
structure PyStmt where
  reads : List String
  writes : List String
  effects : List Effect
  deriving DecidableEq

/-- Executes a statement list under Python local-variable scoping: a
statement whose read set contains a name not yet assigned aborts with that
name (Python's UnboundLocalError) before performing any of its effects.
Returns the effects of the executed statements (over-approximated: a
statement's possible effects are all counted once it runs) and the name
that caused the abort, if any. -/
def runStmts (bound : List String) : List PyStmt → List Effect × Option String
  | [] => ([], none)
  | s :: rest =>
    match s.reads.find? (fun v => !(bound.contains v)) with
    | some v => ([], some v)
    | none =>
      let r := runStmts (s.writes ++ bound) rest
      (s.effects ++ r.1, r.2)

/-- The body of `simple_trading_strategy` (src/main.py lines 160-233) as a
read/write/effect skeleton, in source order: the two opening prints (the
second reads the local `rsi`, which is only assigned at line 182), the
candle fetch, the `'candles' in candles_data` guard, the close-extraction
loop, the length guard, the four indicator/price assignments, the four
prints, and the decision block (which may place an order).  The malformed,
inconsistently indented region (lines 193-203) is flattened into the final
decision entry; its effects matter only for reachability. -/
def strategyBody : List PyStmt :=
  [ ⟨["instrument"], [], []⟩,
    ⟨["rsi"], [], []⟩,
    ⟨["trader", "instrument"], ["candles_data"], [.fetchCandles]⟩,
    ⟨["candles_data"], [], []⟩,
    ⟨["candles_data"], ["closes"], []⟩,
    ⟨["closes"], [], []⟩,
    ⟨["trader", "closes"], ["sma_20"], []⟩,
    ⟨["trader", "closes"], ["sma_50"], []⟩,
    ⟨["trader", "closes"], ["rsi"], []⟩,
    ⟨["closes"], ["current_price"], []⟩,
    ⟨["current_price"], [], []⟩,
    ⟨["sma_20"], [], []⟩,
    ⟨["sma_50"], [], []⟩,
    ⟨["rsi"], [], []⟩,
    ⟨["rsi", "sma_20", "sma_50", "current_price", "trader", "instrument"],
      ["stop_loss", "take_profit", "order_result"], [.placeOrder]⟩ ]

/-- The parameters of `simple_trading_strategy(trader, instrument)`: the
only names bound when its body starts executing. -/
def strategyParams : List String := ["trader", "instrument"]

/-- The spec's example input: 15 strictly decreasing closes starting at
1.10 and stepping down by 0.01. -/
def closes15 : List ℚ :=
  [110/100, 109/100, 108/100, 107/100, 106/100, 105/100, 104/100, 103/100,
   102/100, 101/100, 100/100, 99/100, 98/100, 97/100, 96/100]

/-- A 50-close series whose latest price is negative: 30 closes at 10
followed by 20 closes at -10.  The last 14 differences are all zero, so
RSI = 100; SMA(20) = -10 < SMA(50) = 2, so the decision is Sell at the
non-positive current price -10. -/
def closesNeg : List ℚ := List.replicate 30 10 ++ List.replicate 20 (-10)

/-- Every element of a Python tail slice is an element of the list. -/
lemma pySliceLast_subset {k : ℕ} {l : List ℚ} {x : ℚ} (h : x ∈ pySliceLast k l) :
    x ∈ l := by
  unfold pySliceLast at h
  split at h
  · exact h
  · exact List.mem_of_mem_drop h

/-- `diffs` produces one difference per adjacent pair. -/
lemma diffs_length : ∀ l : List ℚ, (diffs l).length = l.length - 1
  | [] => rfl
  | [_] => rfl
  | _ :: b :: rest => by
    simp [diffs, diffs_length (b :: rest)]

/-! ## Claim theorems -/

/-- C1 counterexample: on a flat series of 15 equal closes with window 14,
`calculate_rsi` returns 100, not the 50 the claim states (the
`avg_loss == 0` branch fires even when the average gain is also zero). -/
theorem rsi_flat_counterexample :
    calculate_rsi (List.replicate 15 (2 : ℚ)) 14 = some 100 ∧
    (some (100 : ℚ) ≠ some (50 : ℚ)) := by
  constructor
  · norm_num [calculate_rsi, diffs, pySliceLast, List.replicate]
  · norm_num

/-- C1 (amended): for every flat price series (all per-step differences
zero) with at least `window + 1` closes and a positive window, the RSI
computation returns 100 — a defined value, not a divide-by-zero, because
the zero-average-loss branch returns before any division. -/
theorem rsi_flat_returns_100 (closes : List ℚ) (period : ℕ) (hp : 0 < period)
    (hlen : period + 1 ≤ closes.length)
    (hflat : ∀ d ∈ diffs closes, d = 0) :
    calculate_rsi closes period = some 100 := by
  have hnotlt : ¬ closes.length < period + 1 := not_lt.2 hlen
  simp only [calculate_rsi]
  rw [if_neg hnotlt]
  have hloss :
      (pySliceLast period ((diffs closes).map fun d => if d < 0 then -d else 0)).sum
        = (0 : ℚ) := by
    apply List.sum_eq_zero
    intro x hx
    rcases List.mem_map.1 (pySliceLast_subset hx) with ⟨d, hd, rfl⟩
    simp [hflat d hd]
  rw [hloss]
  simp

/-- C1 witness: the flat 15-close series at price 2 satisfies the
hypotheses and yields RSI 100. -/
theorem rsi_flat_returns_100_witness :
    calculate_rsi (List.replicate 15 (2 : ℚ)) 14 = some 100 :=
  rsi_flat_returns_100 (List.replicate 15 2) 14 (by norm_num)
    (by norm_num)
    (by norm_num [diffs, List.replicate])

/-- C3 counterexample: with RSI 10 (below the oversold threshold 30), a
defined short SMA and an undefined long SMA, the decision is Hold, not the
Buy the RSI-only fallback in the claim requires. -/
theorem sma_fallback_counterexample :
    tradingDecision (some 10) (some 1) none = Decision.hold ∧
    Decision.hold ≠ Decision.buy := by
  exact ⟨rfl, by decide⟩

/-- C3 (amended): when the long SMA is undefined the evaluator returns
Hold unconditionally — the guard `if rsi and sma_20 and sma_50` skips the
whole decision block, and no RSI-only fallback exists. -/
theorem sma_undefined_holds (r s20 : Option ℚ) :
    tradingDecision r s20 none = Decision.hold := by
  cases r <;> cases s20 <;> rfl

/-- C4: with fewer than `window + 1` closes the RSI is undefined (`none`),
and an undefined RSI makes the decision Hold whatever the SMA values are:
`None` is falsy, so the guard skips every signal branch. -/
theorem rsi_undefined_holds (closes : List ℚ) (period : ℕ)
    (h : closes.length < period + 1) (s20 s50 : Option ℚ) :
    calculate_rsi closes period = none ∧
    tradingDecision none s20 s50 = Decision.hold := by
  constructor
  · simp only [calculate_rsi]
    rw [if_pos h]
  · rfl

/-- C4 witness: a one-close series has undefined RSI and the decision on
an undefined RSI is Hold. -/
theorem rsi_undefined_holds_witness :
    calculate_rsi [(1 : ℚ)] 14 = none ∧
    tradingDecision none (some 1) (some 2) = Decision.hold :=
  rsi_undefined_holds [1] 14 (by norm_num) (some 1) (some 2)

/-- C5: for any positive current price, the buy branch computes stop-loss
`p * 0.99` strictly below the price, take-profit `p * 1.02` strictly above
it, and positive units 1000, and the sell branch computes stop-loss
`p * 1.01` strictly above the price, take-profit `p * 0.98` strictly below
it, and negative units -1000. -/
theorem risk_sign_invariant (p : ℚ) (h : 0 < p) :
    riskParams Decision.buy p = some (p * (99 / 100), p * (102 / 100), 1000) ∧
    p * (99 / 100) < p ∧ p < p * (102 / 100) ∧ ((0 : ℤ) < 1000) ∧
    riskParams Decision.sell p = some (p * (101 / 100), p * (98 / 100), -1000) ∧
    p * (98 / 100) < p ∧ p < p * (101 / 100) ∧ ((-1000 : ℤ) < 0) := by
  refine ⟨rfl, ?_, ?_, by norm_num, rfl, ?_, ?_, by norm_num⟩ <;> nlinarith

/-- C5 witness: the invariant at price 1. -/
theorem risk_sign_invariant_witness :
    riskParams Decision.buy 1 = some (1 * (99 / 100), 1 * (102 / 100), 1000) ∧
    1 * (99 / 100) < (1 : ℚ) ∧ (1 : ℚ) < 1 * (102 / 100) ∧ ((0 : ℤ) < 1000) ∧
    riskParams Decision.sell 1 = some (1 * (101 / 100), 1 * (98 / 100), -1000) ∧
    1 * (98 / 100) < (1 : ℚ) ∧ (1 : ℚ) < 1 * (101 / 100) ∧ ((-1000 : ℤ) < 0) :=
  risk_sign_invariant 1 (by norm_num)

/-- C9: running the body of `simple_trading_strategy` from its parameters
aborts on the unbound local `rsi` (printed at line 161, first assigned at
line 182) with an empty effect trace: no candle fetch, no indicator
assignment, and no order placement ever executes, so the (malformed)
order-placement branches are unreachable. -/
theorem strategy_body_aborts_unbound_rsi :
    runStmts strategyParams strategyBody = ([], some "rsi") := by
  decide

/-- C10: a stop-loss or take-profit of exactly 0 is dropped from the order
payload by the truthiness guards `if stop_loss:` / `if take_profit:`, so
the request is identical to one built with no level at all. -/
theorem zero_levels_omitted (i : String) (u : ℤ) (sl tp : Option ℚ) :
    (create_market_order i u (some 0) tp).stopLossOnFill = none ∧
    (create_market_order i u sl (some 0)).takeProfitOnFill = none ∧
    create_market_order i u (some 0) tp = create_market_order i u none tp ∧
    create_market_order i u sl (some 0) = create_market_order i u sl none := by
  refine ⟨?_, ?_, ?_, ?_⟩ <;> simp [create_market_order]

/-- C2 counterexample: on the spec's example input (15 strictly decreasing
closes), RSI is indeed 0, but the evaluation cycle returns the
insufficient-data result (`none`) — the strategy requires at least 20
closes — so no Buy decision and no units are ever produced. -/
theorem example_cycle_counterexample :
    calculate_rsi closes15 14 = some 0 ∧
    strategyCycle "EUR_USD" closes15 = none := by
  constructor
  · norm_num [calculate_rsi, closes15, diffs, pySliceLast]
  · norm_num [strategyCycle, closes15]

/-- C2 (amended): for every strictly decreasing series of exactly 15
closes, RSI(14) is 0 (no gains), and the evaluation cycle takes the
insufficient-data path (fewer than 20 closes), producing no decision and
no order. -/
theorem decreasing15_rsi_zero_insufficient (closes : List ℚ)
    (hlen : closes.length = 15) (hdec : ∀ d ∈ diffs closes, d < 0) :
    calculate_rsi closes 14 = some 0 ∧
    strategyCycle "EUR_USD" closes = none := by
  have hd_len : (diffs closes).length = 14 := by rw [diffs_length, hlen]
  constructor
  · have hnotlt : ¬ closes.length < 14 + 1 := by rw [hlen]; norm_num
    simp only [calculate_rsi]
    rw [if_neg hnotlt]
    have hgain :
        (pySliceLast 14 ((diffs closes).map fun d => if d > 0 then d else 0)).sum
          = (0 : ℚ) := by
      apply List.sum_eq_zero
      intro x hx
      rcases List.mem_map.1 (pySliceLast_subset hx) with ⟨d, hd, rfl⟩
      simp [not_lt.2 (le_of_lt (hdec d hd))]
    have hloss_len :
        ((diffs closes).map fun d => if d < 0 then -d else 0).length = 14 := by
      simp [hd_len]
    have hslice :
        pySliceLast 14 ((diffs closes).map fun d => if d < 0 then -d else 0)
          = (diffs closes).map fun d => if d < 0 then -d else 0 := by
      unfold pySliceLast
      rw [if_neg (by norm_num), hloss_len]
      simp
    have hpos :
        (0 : ℚ) < ((diffs closes).map fun d => if d < 0 then -d else 0).sum := by
      apply List.sum_pos
      · intro x hx
        rcases List.mem_map.1 hx with ⟨d, hd, rfl⟩
        rw [if_pos (hdec d hd)]
        exact neg_pos.2 (hdec d hd)
      · intro hnil
        rw [hnil] at hloss_len
        simp at hloss_len
    split
    · rename_i hzero
      rw [hslice] at hzero
      exact absurd hzero (by positivity)
    · rw [hgain]
      norm_num
  · simp only [strategyCycle]
    rw [if_pos (by rw [hlen]; norm_num)]

/-- C2 witness: the spec's concrete example series satisfies the
hypotheses — RSI 0 and no order. -/
theorem decreasing15_rsi_zero_insufficient_witness :
    calculate_rsi closes15 14 = some 0 ∧
    strategyCycle "EUR_USD" closes15 = none :=
  decreasing15_rsi_zero_insufficient closes15 (by norm_num [closes15])
    (by norm_num [diffs, closes15])

/-- C6 counterexample: `closesNeg` ends at the non-positive price -10 and
produces a Sell decision, yet the cycle still computes risk parameters and
builds the market order — no InvalidPriceError exists in the code, and an
order intent IS produced. -/
theorem invalid_price_counterexample :
    closesNeg.getLastD 0 = -10 ∧ ((-10 : ℚ) ≤ 0) ∧
    strategyCycle "EUR_USD" closesNeg =
      some (Decision.sell, some (create_market_order "EUR_USD" (-1000)
        (some (-101 / 10)) (some (-49 / 5)))) := by
  refine ⟨by norm_num [closesNeg, List.replicate], by norm_num, ?_⟩
  norm_num [strategyCycle, closesNeg, calculate_sma, calculate_rsi, diffs,
    pySliceLast, tradingDecision, riskParams, List.replicate]

/-- C6 (amended): the code never validates the current price: for every
non-positive price, both non-Hold branches still produce their risk
parameters (scaled from the non-positive price), and the order is then
built from them. -/
theorem no_price_validation (p : ℚ) (hp : p ≤ 0) :
    riskParams Decision.buy p = some (p * (99 / 100), p * (102 / 100), 1000) ∧
    riskParams Decision.sell p = some (p * (101 / 100), p * (98 / 100), -1000) :=
  ⟨rfl, rfl⟩

/-- C6 witness: the amended statement at price -1. -/
theorem no_price_validation_witness :
    riskParams Decision.buy (-1) =
      some ((-1) * (99 / 100), (-1) * (102 / 100), 1000) ∧
    riskParams Decision.sell (-1) =
      some ((-1) * (101 / 100), (-1) * (98 / 100), -1000) :=
  no_price_validation (-1) (by norm_num)

/-- Two complete candles with strictly decreasing timestamps (5 then 3)
and present closes. -/
def outOfOrderCandles : List RawCandle :=
  [⟨some true, some 5, some 2⟩, ⟨some true, some 3, some 1⟩]

/-- C7 counterexample: the extraction loop accepts candles whose
timestamps are strictly decreasing — it returns the closes with no error,
although the claim requires a MalformedInputError on non-monotone
timestamps. -/
theorem timestamps_ignored_counterexample :
    outOfOrderCandles.map RawCandle.timestamp = [some 5, some 3] ∧
    extractCloses outOfOrderCandles = Except.ok [2, 1] :=
  ⟨rfl, rfl⟩

/-- Mapping cons over an `Except` result: the mapped value is `ok (v :: t)`
exactly when the original was `ok t`. -/
lemma except_map_cons_eq {v : ℚ} {x : Except PyErr (List ℚ)} {t : List ℚ} :
    x.map (fun tl => v :: tl) = Except.ok (v :: t) ↔ x = Except.ok t := by
  cases x with
  | error e => simp [Except.map]
  | ok l => simp [Except.map]

/-- C7 (amended): the extraction loop filters out incomplete candles and
keeps the `mid.c` closes of the complete ones; it succeeds — returning
exactly those closes — precisely when every record carries its `complete`
flag and every record marked complete carries its close (otherwise it
aborts with a KeyError, not a MalformedInputError); timestamps are never
examined. -/
theorem extract_ok_iff (cs : List RawCandle) :
    extractCloses cs =
      Except.ok ((cs.filter fun c => c.complete == some true).filterMap
        fun c => c.mid_c) ↔
    ∀ c ∈ cs, c.complete ≠ none ∧ (c.complete = some true → c.mid_c ≠ none) := by
  induction cs with
  | nil => simp [extractCloses]
  | cons c rest ih =>
    rcases hc : c.complete with _ | b
    · simp [extractCloses, hc]
    · cases b
      · simp [extractCloses, List.filter_cons, hc, ih]
      · rcases hm : c.mid_c with _ | v
        · simp [extractCloses, hc, hm]
        · simp [extractCloses, List.filter_cons, hc, hm,
            except_map_cons_eq, ih]

/-- C8: whenever an evaluation cycle produces an order, the sign of the
order's units recovers the decision's direction: +1 for Buy (1000 units),
-1 for Sell (-1000 units). -/
theorem order_units_sign_roundtrip (i : String) (closes : List ℚ)
    (d : Decision) (ord : MarketOrder)
    (h : strategyCycle i closes = some (d, some ord)) :
    Int.sign ord.units = directionOf d := by
  simp only [strategyCycle] at h
  split at h
  · exact Option.noConfusion h
  · rw [Option.some_inj] at h
    have hd := congrArg Prod.fst h
    have ho := congrArg Prod.snd h
    simp only at hd ho
    subst hd
    cases htd : tradingDecision (calculate_rsi closes 14)
        (calculate_sma closes 20) (calculate_sma closes 50) with
    | buy =>
      rw [htd] at ho
      simp only [riskParams, Option.map] at ho
      rw [Option.some_inj] at ho
      rw [← ho]
      rfl
    | sell =>
      rw [htd] at ho
      simp only [riskParams, Option.map] at ho
      rw [Option.some_inj] at ho
      rw [← ho]
      rfl
    | hold =>
      rw [htd] at ho
      simp [riskParams] at ho

/-- C8 witness: the concrete Sell cycle on `closesNeg` produces an order
of -1000 units whose sign is the Sell direction -1. -/
theorem order_units_sign_roundtrip_witness :
    Int.sign (create_market_order "EUR_USD" (-1000)
      (some (-101 / 10)) (some (-49 / 5))).units = directionOf Decision.sell :=
  order_units_sign_roundtrip "EUR_USD" closesNeg Decision.sell
    (create_market_order "EUR_USD" (-1000) (some (-101 / 10)) (some (-49 / 5)))
    (by norm_num [strategyCycle, closesNeg, calculate_sma, calculate_rsi, diffs,
      pySliceLast, tradingDecision, riskParams, List.replicate])
